import Mathlib

/-
Verification of the group overview view and application state aggregate of the
polyaxon client, shallowly embedded from:
  src/client/src/components/groups/groupOverview.tsx
  src/client/src/constants/types.ts
-/

/-- A value carried in an update payload dictionary passed to the onUpdate callback:
either a plain string (description, readme) or a list of strings (tags). -/
inductive UpdateValue where
  | str (s : String)
  | strList (l : List String)
deriving DecidableEq

/-- An update payload dictionary, embedding the object literal the view passes to the
onUpdate callback, as an association list from property name to value. -/
abbrev UpdateDict := List (String × UpdateValue)

/-- The group data record consumed by GroupOverview, with the fields the view reads in
src/client/src/components/groups/groupOverview.tsx. Numeric fields are embedded as Int,
identifiers and timestamps as String. -/
structure GroupModel where
  id : String
  user : String
  description : String
  created_at : String
  updated_at : String
  started_at : String
  finished_at : String
  last_status : String
  search_algorithm : String
  concurrency : Int
  current_iteration : Int
  num_experiments : Int
  num_scheduled_experiments : Int
  num_pending_experiments : Int
  num_running_experiments : Int
  num_succeeded_experiments : Int
  num_failed_experiments : Int
  num_stopped_experiments : Int
  has_tensorboard : Bool
  project : String
  tags : List String
  readme : String

/-- A node of the rendered output tree. Collaborator widgets are nodes carrying the
props the view passes to them. Editor widgets carry their save handler, modelled as a
function from the edited value to the list of update dictionaries passed to the
onUpdate callback, in order, one list entry per invocation of the callback. -/
inductive Node where
  | emptyList (validation : Bool) (itemLabel contextLabel : String)
  | div (className : String) (children : List Node)
  | descriptionEditor (description : String) (showEmpty : Bool)
      (onSave : String → List UpdateDict)
  | userMetaInfo (user : String) (inline : Bool)
  | datesMetaInfo (createdAt updatedAt : String) (inline : Bool)
  | taskRunMetaInfo (startedAt finishedAt : String) (inline : Bool)
  | statusBadge (status : String)
  | searchAlgorithmMetaInfo (searchAlgorithm : String) (inline : Bool)
  | concurrencyMetaInfo (concurrency : Int) (inline : Bool)
  | experimentCountMetaInfo (count : Int) (inline : Bool)
  | metaInfo (icon name : String) (value : Int) (inline : Bool)
  | htmlSpan (className : String) (children : List Node)
  | htmlI (className : String)
  | htmlA (href className text : String)
  | tagsEditor (tags : List String) (onSave : List String → List UpdateDict)
  | mdEditor (content : String) (onSave : String → List UpdateDict)

/-- Shallow embedding of GroupOverview.render from
src/client/src/components/groups/groupOverview.tsx. The external URL builder
getGroupTensorboardUrl is an opaque collaborator and is taken as a parameter. An
absent group is embedded as none. A falsy conditional renders nothing, embedded as
concatenation with the empty list. -/
def GroupOverview.render (getGroupTensorboardUrl : String → String → String)
    (group : Option GroupModel) : Node :=
  match group with
  | none => Node.emptyList false "experiment group" "group"
  | some group =>
    Node.div "entity-details" [
      Node.div "row" [
        Node.div "col-md-12" ([
          Node.descriptionEditor group.description true
            (fun description => [[("description", UpdateValue.str description)]]),
          Node.div "meta" [
            Node.userMetaInfo group.user true,
            Node.datesMetaInfo group.created_at group.updated_at true],
          Node.div "meta" [
            Node.taskRunMetaInfo group.started_at group.finished_at true,
            Node.statusBadge group.last_status],
          Node.div "meta" ([
            Node.searchAlgorithmMetaInfo group.search_algorithm true,
            Node.concurrencyMetaInfo group.concurrency true] ++
            (if group.current_iteration > 0 then
              [Node.metaInfo "fa-refresh" "Iteration" group.current_iteration true]
            else [])),
          Node.div "meta" [
            Node.experimentCountMetaInfo group.num_experiments true,
            Node.metaInfo "fa-hourglass-1" "Scheduled" group.num_scheduled_experiments true,
            Node.metaInfo "fa-hourglass-end" "Pending" group.num_pending_experiments true,
            Node.metaInfo "fa-bolt" "Running" group.num_running_experiments true,
            Node.metaInfo "fa-check" "Succeeded" group.num_succeeded_experiments true,
            Node.metaInfo "fa-close" "Failed" group.num_failed_experiments true,
            Node.metaInfo "fa-stop" "Stopped" group.num_stopped_experiments true]] ++
          (if group.has_tensorboard then
            [Node.div "meta" [
              Node.htmlSpan "meta-info meta-dashboard" [
                Node.htmlI "fa fa-link icon",
                Node.htmlA (getGroupTensorboardUrl group.project group.id) "title-link"
                  "Tensorboard"]]]
          else []) ++ [
          Node.tagsEditor group.tags
            (fun tags => [[("tags", UpdateValue.strList tags)]]),
          Node.mdEditor group.readme
            (fun readme => [[("readme", UpdateValue.str readme)]])])
      ]
    ]

mutual

/-- Preorder traversal of a render tree collecting the observations f n of every node. -/
def Node.collect (f : Node → List α) : Node → List α
  | Node.div c cs => f (Node.div c cs) ++ Node.collectList f cs
  | Node.htmlSpan c cs => f (Node.htmlSpan c cs) ++ Node.collectList f cs
  | n => f n

/-- Node.collect applied across a list of children. -/
def Node.collectList (f : Node → List α) : List Node → List α
  | [] => []
  | n :: ns => Node.collect f n ++ Node.collectList f ns

end

/-- The iteration metadata widget occurrences in a render tree, as pairs of the icon
and the displayed value. -/
def iterationWidgets (n : Node) : List (String × Int) :=
  n.collect fun m =>
    match m with
    | Node.metaInfo icon name v _ => if name = "Iteration" then [(icon, v)] else []
    | _ => []

/-- The hyperlink nodes of a render tree, as triples of href, class and text. -/
def linkWidgets (n : Node) : List (String × String × String) :=
  n.collect fun m =>
    match m with
    | Node.htmlA href c t => [(href, c, t)]
    | _ => []

/-- Observation of one outcome-count widget: either the total-count collaborator widget
or a generic metadata widget with its icon, label and value. -/
inductive CountWidget where
  | experimentCount (count : Int)
  | labelled (icon name : String) (value : Int)
deriving DecidableEq

/-- The fixed labels of the six per-outcome metadata widgets. -/
def outcomeNames : List String :=
  ["Scheduled", "Pending", "Running", "Succeeded", "Failed", "Stopped"]

/-- The outcome-count widgets of a render tree in document order: the experiment total
widget and every metadata widget labelled with one of the outcome names. -/
def outcomeWidgets (n : Node) : List CountWidget :=
  n.collect fun m =>
    match m with
    | Node.experimentCountMetaInfo c _ => [CountWidget.experimentCount c]
    | Node.metaInfo i nm v _ =>
        if nm ∈ outcomeNames then [CountWidget.labelled i nm v] else []
    | _ => []

/-- The save handlers of the description editors present in a render tree. -/
def descriptionHandlers (n : Node) : List (String → List UpdateDict) :=
  n.collect fun m =>
    match m with
    | Node.descriptionEditor _ _ h => [h]
    | _ => []

/-- The save handlers of the tag editors present in a render tree. -/
def tagsHandlers (n : Node) : List (List String → List UpdateDict) :=
  n.collect fun m =>
    match m with
    | Node.tagsEditor _ h => [h]
    | _ => []

/-- The save handlers of the readme editors present in a render tree. -/
def readmeHandlers (n : Node) : List (String → List UpdateDict) :=
  n.collect fun m =>
    match m with
    | Node.mdEditor _ h => [h]
    | _ => []

/-- The labels of the editor widgets present in a render tree. -/
def editorLabels (n : Node) : List String :=
  n.collect fun m =>
    match m with
    | Node.descriptionEditor _ _ _ => ["description"]
    | Node.tagsEditor _ _ => ["tags"]
    | Node.mdEditor _ _ => ["readme"]
    | _ => []

/-- C2: for every present group, the current-iteration metadata widget is in the render
output exactly when current_iteration is strictly positive, and then it is the single
iteration widget and displays exactly current_iteration. -/
theorem C2_iteration_widget (f : String → String → String) (g : GroupModel) :
    iterationWidgets (GroupOverview.render f (some g)) =
      if g.current_iteration > 0 then [("fa-refresh", g.current_iteration)] else [] := by
  by_cases h1 : g.current_iteration > 0 <;> by_cases h2 : g.has_tensorboard <;>
    simp [GroupOverview.render, iterationWidgets, Node.collect, Node.collectList,
      outcomeNames, h1, h2]

/-- C3: for every present group, the render output contains the external dashboard
hyperlink exactly when has_tensorboard is true, and then the single link targets the
result of the URL builder applied to the project identifier and the group identifier. -/
theorem C3_tensorboard_link (f : String → String → String) (g : GroupModel) :
    linkWidgets (GroupOverview.render f (some g)) =
      if g.has_tensorboard then [(f g.project g.id, "title-link", "Tensorboard")]
      else [] := by
  by_cases h1 : g.current_iteration > 0 <;> by_cases h2 : g.has_tensorboard <;>
    simp [GroupOverview.render, linkWidgets, Node.collect, Node.collectList, h1, h2]

/-- C4: for every present group, the render output contains exactly seven outcome-count
widgets, in the fixed order total, scheduled, pending, running, succeeded, failed,
stopped, each with its fixed icon and label and the corresponding count of the group;
the equation holds for every group, so zero counts are rendered and neither the order
nor the set of widgets depends on the data. -/
theorem C4_outcome_widgets (f : String → String → String) (g : GroupModel) :
    outcomeWidgets (GroupOverview.render f (some g)) =
      [CountWidget.experimentCount g.num_experiments,
       CountWidget.labelled "fa-hourglass-1" "Scheduled" g.num_scheduled_experiments,
       CountWidget.labelled "fa-hourglass-end" "Pending" g.num_pending_experiments,
       CountWidget.labelled "fa-bolt" "Running" g.num_running_experiments,
       CountWidget.labelled "fa-check" "Succeeded" g.num_succeeded_experiments,
       CountWidget.labelled "fa-close" "Failed" g.num_failed_experiments,
       CountWidget.labelled "fa-stop" "Stopped" g.num_stopped_experiments] := by
  by_cases h1 : g.current_iteration > 0 <;> by_cases h2 : g.has_tensorboard <;>
    simp [GroupOverview.render, outcomeWidgets, Node.collect, Node.collectList,
      outcomeNames, h1, h2]

/-- C5: for an absent group input the render output is exactly the standardized empty
placeholder, parameterized by the item-type label and the route-context label, and the
output contains no editor widget, so no save handler exists and the onUpdate callback
can never be invoked. -/
theorem C5_absent_group (f : String → String → String) :
    GroupOverview.render f none = Node.emptyList false "experiment group" "group" ∧
    editorLabels (GroupOverview.render f none) = [] := by
  refine ⟨rfl, ?_⟩
  simp [GroupOverview.render, editorLabels, Node.collect, Node.collectList]

/-- C6: for every present group, the render output contains exactly one description
editor, and saving it with a value v makes exactly one onUpdate invocation, whose
payload is the singleton dictionary mapping description to v. -/
theorem C6_description_save (f : String → String → String) (g : GroupModel)
    (v : String) :
    (descriptionHandlers (GroupOverview.render f (some g))).map (fun h => h v) =
      [[[("description", UpdateValue.str v)]]] := by
  by_cases h1 : g.current_iteration > 0 <;> by_cases h2 : g.has_tensorboard <;>
    simp [GroupOverview.render, descriptionHandlers, Node.collect, Node.collectList,
      h1, h2]

/-- C7: for every present group, saving the single tag editor with a list ts makes
exactly one onUpdate invocation with the singleton payload mapping tags to ts, and
saving the single readme editor with a text t makes exactly one onUpdate invocation
with the singleton payload mapping readme to t. -/
theorem C7_tags_readme_save (f : String → String → String) (g : GroupModel)
    (ts : List String) (t : String) :
    (tagsHandlers (GroupOverview.render f (some g))).map (fun h => h ts) =
      [[[("tags", UpdateValue.strList ts)]]] ∧
    (readmeHandlers (GroupOverview.render f (some g))).map (fun h => h t) =
      [[[("readme", UpdateValue.str t)]]] := by
  constructor <;>
    (by_cases h1 : g.current_iteration > 0 <;> by_cases h2 : g.has_tensorboard <;>
      simp [GroupOverview.render, tagsHandlers, readmeHandlers, Node.collect,
        Node.collectList, h1, h2])

/-- C8: every payload any of the three editors passes to the onUpdate callback is a
singleton dictionary whose only key is the edited field. -/
theorem C8_singleton_payloads (f : String → String → String) (g : GroupModel)
    (v t : String) (ts : List String) :
    (((descriptionHandlers (GroupOverview.render f (some g))).map
        (fun h => h v)).flatten.all
      (fun d => d.map Prod.fst == ["description"])) = true ∧
    (((tagsHandlers (GroupOverview.render f (some g))).map
        (fun h => h ts)).flatten.all
      (fun d => d.map Prod.fst == ["tags"])) = true ∧
    (((readmeHandlers (GroupOverview.render f (some g))).map
        (fun h => h t)).flatten.all
      (fun d => d.map Prod.fst == ["readme"])) = true := by
  refine ⟨?_, ?_, ?_⟩ <;>
    (by_cases h1 : g.current_iteration > 0 <;> by_cases h2 : g.has_tensorboard <;>
      simp [GroupOverview.render, descriptionHandlers, tagsHandlers, readmeHandlers,
        Node.collect, Node.collectList, h1, h2])

/-- C9: rendering is deterministic: two invocations with identical group inputs and the
same URL builder produce identical output trees. The embedding of render as a total
function on the group record captures that rendering reads no other state and performs
no effect. -/
theorem C9_render_deterministic (f : String → String → String)
    (g g' : Option GroupModel) (h : g = g') :
    GroupOverview.render f g = GroupOverview.render f g' := by
  rw [h]

/-- A concrete group record used to instantiate theorems with hypotheses. -/
def sampleGroup : GroupModel :=
  GroupModel.mk "g7" "alice" "a group" "2018-01-01" "2018-01-02" "2018-01-03"
    "2018-01-04" "Succeeded" "grid" 1 5 10 1 2 3 4 0 0 true "p1" ["t1"] "notes"

/-- Witness for C9: two renders of the sample group with a concrete URL builder
agree. -/
theorem C9_render_deterministic_witness :
    GroupOverview.render (fun p i => p ++ "/" ++ i) (some sampleGroup) =
      GroupOverview.render (fun p i => p ++ "/" ++ i) (some sampleGroup) :=
  C9_render_deterministic (fun p i => p ++ "/" ++ i) (some sampleGroup)
    (some sampleGroup) rfl

/-- The property keys declared by the interface AppState in
src/client/src/constants/types.ts, in declaration order. -/
def AppStateKeys : List String :=
  ["projects", "experiments", "experimentsParams", "groups", "jobs", "builds",
   "experimentJobs", "modal", "auth", "healthStatus", "users", "logs", "statuses",
   "metrics", "activityLogs", "searches", "chartViews", "codeReferences"]

/-- The per-feature default values imported from the model modules, treated as opaque
tokens, together with plain string values, since the logs entry is a string literal. -/
inductive SliceValue where
  | ProjectsEmptyState
  | ExperimentsEmptyState
  | ExperimentsParamsEmptyState
  | GroupsEmptyState
  | JobsEmptyState
  | BuildsEmptyState
  | ExperimentJobsEmptyState
  | TokenEmptyState
  | HealthStatusEmptyState
  | UserEmptyState
  | StatusEmptyState
  | MetricEmptyState
  | ActivityLogsEmptyState
  | SearchesEmptyState
  | ChartViewEmptyState
  | CodeReferenceEmptyState
  | strVal (s : String)
deriving DecidableEq

/-- Shallow embedding of the constant object AppEmptyState from
src/client/src/constants/types.ts, as an association list with the entries in source
order. A key has a non-undefined value exactly when lookup of it succeeds. -/
def AppEmptyState : List (String × SliceValue) :=
  [("projects", SliceValue.ProjectsEmptyState),
   ("experiments", SliceValue.ExperimentsEmptyState),
   ("experimentsParams", SliceValue.ExperimentsParamsEmptyState),
   ("groups", SliceValue.GroupsEmptyState),
   ("jobs", SliceValue.JobsEmptyState),
   ("builds", SliceValue.BuildsEmptyState),
   ("experimentJobs", SliceValue.ExperimentJobsEmptyState),
   ("auth", SliceValue.TokenEmptyState),
   ("healthStatus", SliceValue.HealthStatusEmptyState),
   ("user", SliceValue.UserEmptyState),
   ("logs", SliceValue.strVal ""),
   ("statuses", SliceValue.StatusEmptyState),
   ("metrics", SliceValue.MetricEmptyState),
   ("activityLogs", SliceValue.ActivityLogsEmptyState),
   ("searches", SliceValue.SearchesEmptyState),
   ("chartViews", SliceValue.ChartViewEmptyState),
   ("codeReferences", SliceValue.CodeReferenceEmptyState)]

/-- C1 fails on the code: the declared AppState keys modal and users have no entry in
the default singleton AppEmptyState, so reading them on the default state observes an
undefined value. This theorem evaluates the embedded code at the failing keys. -/
theorem C1_appEmptyState_missing_declared_keys :
    "modal" ∈ AppStateKeys ∧ AppEmptyState.lookup "modal" = none ∧
    "users" ∈ AppStateKeys ∧ AppEmptyState.lookup "users" = none := by decide

/-- C10: AppEmptyState diverges from the keys declared by AppState at exactly the two
declared keys modal and users, in that order, populates exactly one undeclared key,
user, and every other declared key has a matching entry, since it survives the first
filter. -/
theorem C10_appEmptyState_divergence :
    AppStateKeys.filter (fun k => (AppEmptyState.lookup k).isNone) =
      ["modal", "users"] ∧
    (AppEmptyState.map Prod.fst).filter (fun k => !(AppStateKeys.contains k)) =
      ["user"] := by decide
